import Mathlib

set_option linter.unusedVariables false

/-!
Shallow embedding of `src/travel_planner_system.py` (multi-agent travel
planning pipeline): data model, the three stage agents (Research, Planning,
Personalization), and the orchestrator `plan_trip`, together with theorems
settling the behavioural claims about the pipeline.

Modelling choices:
* Python dicts holding the stage inputs/outputs are association lists
  `List (String × Value)` wrapped in the inductive `Value` of JSON-like data.
  The dict produced by `dataclasses.asdict(constraints)` is represented
  structurally by the constructor `Value.cdict`, since the agents immediately
  reconstruct a `TravelConstraints` from it.
* Each external text-generation provider call is an oracle: a `Provider`
  record assigns every sub-call of one run an `Option String` — `some s`
  means the provider returned text `s`, `none` means the call raised
  (network/auth/rate-limit failure).  The `try/except` blocks of the source
  become a `match` on that option.
* Wall-clock time is an oracle as well: `Timings` supplies the elapsed
  duration (`ℚ`, in seconds) that `time.time() - start_time` measures for
  each stage invocation.  Each agent's mutable `self.processing_time`
  attribute is threaded explicitly (`0` at construction, as in
  `BaseAgent.__init__`).
* Python exceptions are `Except PyErr`; functions that can raise return it.
  The one arithmetic failure point of the pipeline —
  `budget_per_night = ... / constraints.duration_days` in
  `_get_accommodation_info`, evaluated before its `try:` block — is modelled
  by an explicit `duration_days = 0` test raising `ZeroDivisionError`.
* Every attempted provider call, and every entry to / return from a stage
  agent's `process`, is recorded in a trace of `Event`s so that fail-fast,
  call-ordering and side-effect claims can be stated.
-/

namespace TravelPlanner

/-- `TravelConstraints` dataclass of the source (line 82): budget, duration,
traveler count, preferences, optional must-visit / avoid lists, travel style. -/
structure TravelConstraints where
  total_budget_usd : ℚ
  duration_days : Int
  traveler_count : Int
  preferences : List String
  must_visit : Option (List String) := none
  avoid : Option (List String) := none
  travel_style : String := "balanced"
deriving DecidableEq

/-- The Data-Model invariant on constraints: all monetary/day/traveler
fields strictly positive. -/
def TravelConstraints.valid (c : TravelConstraints) : Prop :=
  0 < c.total_budget_usd ∧ 0 < c.duration_days ∧ 0 < c.traveler_count

instance (c : TravelConstraints) : Decidable c.valid := by
  unfold TravelConstraints.valid; infer_instance

/-- JSON-like values: the opaque nested data the stages exchange.
`cdict c` represents the Python dict `asdict(c)` of a constraints value. -/
inductive Value where
  | str : String → Value
  | num : ℚ → Value
  | obj : List (String × Value) → Value
  | arr : List Value → Value
  | cdict : TravelConstraints → Value

/-- Python exceptions that the modelled code can raise. -/
inductive PyErr where
  | keyError : PyErr
  | zeroDivisionError : PyErr
deriving DecidableEq

/-- `AgentType` enum of the source (line 111). -/
inductive AgentType where
  | research
  | planning
  | personalization
deriving DecidableEq

/-- Observable events of one pipeline run: entry to and return from a stage
agent's `process`, and each attempted provider call (named after the
sub-call that issues it). -/
inductive Event where
  | call : AgentType → Event
  | ret : AgentType → Event
  | provider : String → Event
deriving DecidableEq

/-- Outcome oracle for the eleven provider sub-calls of one `plan_trip` run:
`some s` = the external model returned text `s`; `none` = the call failed
with a provider error. -/
structure Provider where
  weather : Option String
  events : Option String
  attractions : Option String
  accommodation : Option String
  transport : Option String
  synthesis : Option String
  generate_itinerary : Option String
  optimize_logistics : Option String
  analyze_costs : Option String
  personalize : Option String
  add_contextual : Option String

/-- Run in which every delegated provider call fails. -/
def Provider.allFail : Provider :=
  ⟨none, none, none, none, none, none, none, none, none, none, none⟩

/-- Dict lookup (`d[k]` success case / `k in d`). -/
def dictGet (m : List (String × Value)) (k : String) : Option Value :=
  match m with
  | [] => none
  | (k', v) :: rest => if k' = k then some v else dictGet rest k

/-- Item access `v[k]` on a `Value`: `KeyError` when the key is absent. -/
def Value.getItem (v : Value) (k : String) : Except PyErr Value :=
  match v with
  | Value.obj m =>
    match dictGet m k with
    | some x => Except.ok x
    | none => Except.error PyErr.keyError
  | _ => Except.error PyErr.keyError

/-- Total field access used to state theorems: `v[k]`, defaulting to the
empty object when absent. -/
def Value.getField (v : Value) (k : String) : Value :=
  match v.getItem k with
  | Except.ok x => x
  | Except.error _ => Value.obj []

/-- Key list of an object value. -/
def Value.keys : Value → List String
  | Value.obj m => m.map Prod.fst
  | _ => []

/-- Whether a value is a plain string. -/
def Value.isStr : Value → Bool
  | Value.str _ => true
  | _ => false

/-- Whether an `Except` result is a normal return (no exception escaped). -/
def exOk {α : Type} : Except PyErr α → Bool
  | Except.ok _ => true
  | Except.error _ => false

namespace ResearchAgent

/-- Value produced by the weather sub-call for a given provider outcome. -/
def weatherResult (p : Provider) : Value :=
  match p.weather with
  | some s => Value.obj [("weather_summary", Value.str s)]
  | none => Value.obj [("weather_summary", Value.str "Weather information unavailable")]

/-- `ResearchAgent._get_weather_info`: one provider call, sentinel
`"Weather information unavailable"` on failure. -/
def get_weather_info (p : Provider) (destination : String) (duration : Int) :
    List Event × Value :=
  ([Event.provider "weather"], weatherResult p)

/-- Value produced by the local-events sub-call. -/
def eventsResult (p : Provider) : Value :=
  match p.events with
  | some s => Value.obj [("events", Value.str s)]
  | none => Value.obj [("events", Value.str "Events information unavailable")]

/-- `ResearchAgent._get_local_events`. -/
def get_local_events (p : Provider) (destination : String) :
    List Event × Value :=
  ([Event.provider "events"], eventsResult p)

/-- Value produced by the attractions sub-call. -/
def attractionsResult (p : Provider) : Value :=
  match p.attractions with
  | some s => Value.obj [("attractions", Value.str s)]
  | none => Value.obj [("attractions", Value.str "Attractions information unavailable")]

/-- `ResearchAgent._get_attractions`. -/
def get_attractions (p : Provider) (destination : String) :
    List Event × Value :=
  ([Event.provider "attractions"], attractionsResult p)

/-- Value produced by the accommodation sub-call when it is reached. -/
def accommodationResult (p : Provider) : Value :=
  match p.accommodation with
  | some s => Value.obj [("accommodation", Value.str s)]
  | none => Value.obj [("accommodation", Value.str "Accommodation information unavailable")]

/-- `ResearchAgent._get_accommodation_info`: computes
`budget_per_night = total_budget_usd * 0.3 / duration_days` BEFORE its
`try:` block, so `duration_days = 0` raises `ZeroDivisionError` out of the
agent (and no accommodation provider call is attempted);
otherwise one provider call with sentinel on failure. -/
def get_accommodation_info (p : Provider) (destination : String)
    (constraints : TravelConstraints) : List Event × Except PyErr Value :=
  if constraints.duration_days = 0 then
    ([], Except.error PyErr.zeroDivisionError)
  else
    ([Event.provider "accommodation"], Except.ok (accommodationResult p))

/-- Value produced by the transport sub-call. -/
def transportResult (p : Provider) : Value :=
  match p.transport with
  | some s => Value.obj [("transport", Value.str s)]
  | none => Value.obj [("transport", Value.str "Transport information unavailable")]

/-- `ResearchAgent._get_transport_info`. -/
def get_transport_info (p : Provider) (destination : String)
    (constraints : TravelConstraints) : List Event × Value :=
  ([Event.provider "transport"], transportResult p)

/-- Value produced by the synthesis sub-call (the gathered data only feeds
the prompt, so the modelled result depends only on the provider outcome). -/
def synthesisResult (p : Provider) : Value :=
  match p.synthesis with
  | some s => Value.obj [("synthesis", Value.str s)]
  | none => Value.obj [("synthesis", Value.str "Synthesis unavailable")]

/-- `ResearchAgent._synthesize_information`: one synthesis provider call over
the gathered (possibly partial) data, sentinel `"Synthesis unavailable"` on
failure. -/
def synthesize_information (p : Provider) (data : List (String × Value)) :
    List Event × Value :=
  ([Event.provider "synthesis"], synthesisResult p)

/-- Body of `ResearchAgent._process_internal` after the `destination` and
`constraints` bindings (lines 144-173): weather, events and attractions
sub-calls run first; the accommodation step may raise `ZeroDivisionError`
(aborting the stage before the transport and synthesis calls); otherwise
transport and synthesis run and the payload is built, embedding the CURRENT
value of `self.processing_time` (`self_time`, not yet updated by the
timing wrapper). -/
def process_body (p : Provider) (self_time : ℚ) (destination : String)
    (constraints : TravelConstraints) : List Event × Except PyErr Value :=
  match get_accommodation_info p destination constraints with
  | (e4, Except.error e) =>
    ((get_weather_info p destination constraints.duration_days).1 ++
     (get_local_events p destination).1 ++
     (get_attractions p destination).1 ++ e4,
     Except.error e)
  | (e4, Except.ok accommodation_info) =>
    ((get_weather_info p destination constraints.duration_days).1 ++
     (get_local_events p destination).1 ++
     (get_attractions p destination).1 ++ e4 ++
     (get_transport_info p destination constraints).1 ++
     (synthesize_information p
       [("destination", Value.str destination),
        ("weather", (get_weather_info p destination constraints.duration_days).2),
        ("events", (get_local_events p destination).2),
        ("attractions", (get_attractions p destination).2),
        ("accommodation", accommodation_info),
        ("transport", (get_transport_info p destination constraints).2),
        ("constraints", Value.cdict constraints)]).1,
     Except.ok (Value.obj
       [("destination", Value.str destination),
        ("research_data",
         (synthesize_information p
           [("destination", Value.str destination),
            ("weather", (get_weather_info p destination constraints.duration_days).2),
            ("events", (get_local_events p destination).2),
            ("attractions", (get_attractions p destination).2),
            ("accommodation", accommodation_info),
            ("transport", (get_transport_info p destination constraints).2),
            ("constraints", Value.cdict constraints)]).2),
        ("raw_data", Value.obj
          [("weather", (get_weather_info p destination constraints.duration_days).2),
           ("events", (get_local_events p destination).2),
           ("attractions", (get_attractions p destination).2),
           ("accommodation", accommodation_info),
           ("transport", (get_transport_info p destination constraints).2)]),
        ("processing_time", Value.num self_time)]))

/-- `ResearchAgent._process_internal` (lines 140-173): reads the required
keys (`KeyError` when absent / malformed), then runs the body. -/
def process_internal (p : Provider) (self_time : ℚ)
    (input_data : List (String × Value)) : List Event × Except PyErr Value :=
  match dictGet input_data "destination", dictGet input_data "constraints" with
  | some (Value.str destination), some (Value.cdict constraints) =>
    process_body p self_time destination constraints
  | _, _ => ([], Except.error PyErr.keyError)

end ResearchAgent

/-- `BaseAgent.process` (lines 123-128): wraps an internal run; on normal
return, updates the stored `processing_time` to the elapsed duration and
returns the payload.  On an escaping exception the assignment never runs.
The result carries (payload, new stored processing_time). -/
def BaseAgent.process (ty : AgentType) (elapsed : ℚ)
    (internal : List Event × Except PyErr Value) :
    List Event × Except PyErr (Value × ℚ) :=
  match internal with
  | (evs, Except.error e) => (Event.call ty :: evs, Except.error e)
  | (evs, Except.ok v) =>
    (Event.call ty :: (evs ++ [Event.ret ty]), Except.ok (v, elapsed))

/-- `process` of the Research agent. -/
def ResearchAgent.process (p : Provider) (elapsed self_time : ℚ)
    (input_data : List (String × Value)) :
    List Event × Except PyErr (Value × ℚ) :=
  BaseAgent.process AgentType.research elapsed
    (ResearchAgent.process_internal p self_time input_data)

namespace PlanningAgent

/-- Value produced by the itinerary-generation sub-call. -/
def itineraryResult (p : Provider) : Value :=
  match p.generate_itinerary with
  | some s => Value.obj [("itinerary", Value.str s)]
  | none => Value.obj [("itinerary", Value.str "Itinerary generation failed")]

/-- `PlanningAgent._generate_itinerary`: sentinel string
`"Itinerary generation failed"` on failure. -/
def generate_itinerary (p : Provider) (research_data : Value)
    (constraints : TravelConstraints) (destination : String) :
    List Event × Value :=
  ([Event.provider "generate_itinerary"], itineraryResult p)

/-- Value produced by the logistics-optimization sub-call: falls back to
its input itinerary on failure. -/
def optimizedResult (p : Provider) (itinerary : Value) : Value :=
  match p.optimize_logistics with
  | some s => Value.obj [("optimized_itinerary", Value.str s)]
  | none => Value.obj [("optimized_itinerary", itinerary)]

/-- `PlanningAgent._optimize_logistics` (lines 435-464): on failure it falls
back to the INPUT itinerary value, not a sentinel string. -/
def optimize_logistics (p : Provider) (itinerary : Value)
    (constraints : TravelConstraints) : List Event × Value :=
  ([Event.provider "optimize_logistics"], optimizedResult p itinerary)

/-- Value produced by the cost-analysis sub-call. -/
def costResult (p : Provider) : Value :=
  match p.analyze_costs with
  | some s => Value.obj [("cost_analysis", Value.str s)]
  | none => Value.obj [("cost_analysis", Value.str "Cost analysis unavailable")]

/-- `PlanningAgent._analyze_costs`: sentinel `"Cost analysis unavailable"`. -/
def analyze_costs (p : Provider) (itinerary : Value)
    (constraints : TravelConstraints) : List Event × Value :=
  ([Event.provider "analyze_costs"], costResult p)

/-- `PlanningAgent._calculate_metrics` (lines 499-506): fixed placeholder
constants, the inputs are ignored. -/
def calculate_metrics (itinerary : Value) (constraints : TravelConstraints) :
    Value :=
  Value.obj
    [("budget_utilization", Value.num 0.85),
     ("geographic_efficiency", Value.num 0.92),
     ("time_efficiency", Value.num 0.88),
     ("preference_match", Value.num 0.91)]

/-- `PlanningAgent._process_internal` (lines 352-372). -/
def process_internal (p : Provider) (self_time : ℚ)
    (input_data : List (String × Value)) : List Event × Except PyErr Value :=
  match dictGet input_data "research_data", dictGet input_data "constraints",
        dictGet input_data "destination" with
  | some research_data, some (Value.cdict constraints), some (Value.str destination) =>
    let r1 := generate_itinerary p research_data constraints destination
    let r2 := optimize_logistics p r1.2 constraints
    let r3 := analyze_costs p r2.2 constraints
    (r1.1 ++ r2.1 ++ r3.1,
     Except.ok (Value.obj
       [("destination", Value.str destination),
        ("itinerary", r2.2),
        ("cost_analysis", r3.2),
        ("optimization_metrics", calculate_metrics r2.2 constraints),
        ("processing_time", Value.num self_time)]))
  | _, _, _ => ([], Except.error PyErr.keyError)

/-- `process` of the Planning agent. -/
def process (p : Provider) (elapsed self_time : ℚ)
    (input_data : List (String × Value)) :
    List Event × Except PyErr (Value × ℚ) :=
  BaseAgent.process AgentType.planning elapsed
    (process_internal p self_time input_data)

end PlanningAgent

namespace PersonalizationAgent

/-- Value produced by the personalize sub-call: falls back to its input
itinerary on failure. -/
def personalizedResult (p : Provider) (itinerary : Value) : Value :=
  match p.personalize with
  | some s => Value.obj [("personalized", Value.str s)]
  | none => Value.obj [("personalized", itinerary)]

/-- `PersonalizationAgent._personalize_itinerary` (lines 532-568): on failure
it falls back to the INPUT itinerary value, not a sentinel string. -/
def personalize_itinerary (p : Provider) (itinerary : Value)
    (constraints : TravelConstraints) (research_data : Value) :
    List Event × Value :=
  ([Event.provider "personalize"], personalizedResult p itinerary)

/-- Value produced by the contextual-recommendations sub-call: falls back to
its input itinerary on failure. -/
def enhancedResult (p : Provider) (itinerary : Value) : Value :=
  match p.add_contextual with
  | some s => Value.obj [("enhanced_itinerary", Value.str s)]
  | none => Value.obj [("enhanced_itinerary", itinerary)]

/-- `PersonalizationAgent._add_contextual_recommendations`: on failure it
falls back to the input itinerary value. -/
def add_contextual_recommendations (p : Provider) (itinerary : Value)
    (constraints : TravelConstraints) : List Event × Value :=
  ([Event.provider "contextual_recommendations"], enhancedResult p itinerary)

/-- `PersonalizationAgent._generate_notes`: local, non-delegated. -/
def generate_notes (constraints : TravelConstraints) : Value :=
  Value.arr
    [Value.str ("Itinerary personalized for " ++ constraints.travel_style ++ " travel style"),
     Value.str ("Optimized for " ++ toString constraints.traveler_count ++ " travelers"),
     Value.str ("Focused on preferences: " ++
       String.intercalate ", " (constraints.preferences.take 3)),
     Value.str "Alternative options provided for weather contingencies"]

/-- `PersonalizationAgent._process_internal` (lines 515-530):
`research_data` is read with `.get(..., {})`, so only `itinerary` and
`constraints` are required keys. -/
def process_internal (p : Provider) (self_time : ℚ)
    (input_data : List (String × Value)) : List Event × Except PyErr Value :=
  match dictGet input_data "itinerary", dictGet input_data "constraints" with
  | some itinerary, some (Value.cdict constraints) =>
    let research_data := (dictGet input_data "research_data").getD (Value.obj [])
    let r1 := personalize_itinerary p itinerary constraints research_data
    let r2 := add_contextual_recommendations p r1.2 constraints
    (r1.1 ++ r2.1,
     Except.ok (Value.obj
       [("personalized_itinerary", r2.2),
        ("personalization_notes", generate_notes constraints),
        ("processing_time", Value.num self_time)]))
  | _, _ => ([], Except.error PyErr.keyError)

/-- `process` of the Personalization agent. -/
def process (p : Provider) (elapsed self_time : ℚ)
    (input_data : List (String × Value)) :
    List Event × Except PyErr (Value × ℚ) :=
  BaseAgent.process AgentType.personalization elapsed
    (process_internal p self_time input_data)

end PersonalizationAgent

/-- Elapsed wall-clock durations of the three stage invocations of one run
(the value `time.time() - start_time` measures in each `process`). -/
structure Timings where
  research : ℚ
  planning : ℚ
  personalization : ℚ

/-- The orchestrator's view of the three agents' stored `processing_time`
attributes. -/
structure OrchestratorState where
  research_time : ℚ
  planning_time : ℚ
  personalization_time : ℚ
deriving DecidableEq

/-- Fresh orchestrator: every agent was just constructed with
`self.processing_time = 0.0`. -/
def OrchestratorState.init : OrchestratorState := ⟨0, 0, 0⟩

/-- The input dict the orchestrator assembles for the Research stage
(lines 620-623). -/
def research_input (destination : String) (constraints : TravelConstraints) :
    List (String × Value) :=
  [("destination", Value.str destination),
   ("constraints", Value.cdict constraints)]

/-- The input dict the orchestrator assembles for the Planning stage
(lines 628-632). -/
def planning_input (destination : String) (constraints : TravelConstraints)
    (research_data : Value) : List (String × Value) :=
  [("destination", Value.str destination),
   ("constraints", Value.cdict constraints),
   ("research_data", research_data)]

/-- The input dict the orchestrator assembles for the Personalization stage
(lines 637-642). -/
def personalization_input (destination : String)
    (constraints : TravelConstraints) (research_data itinerary : Value) :
    List (String × Value) :=
  [("destination", Value.str destination),
   ("constraints", Value.cdict constraints),
   ("research_data", research_data),
   ("itinerary", itinerary)]

/-- `TravelPlanningOrchestrator.plan_trip` (lines 614-664): runs Research,
Planning, Personalization strictly in sequence, threading outputs forward,
and assembles the composite result with `total_processing_time` and
`agent_times` read from the agents' (updated) stored times.  Any escaping
exception propagates; the trace collects all events that occurred. -/
def plan_trip (p : Provider) (t : Timings) (destination : String)
    (constraints : TravelConstraints) (o : OrchestratorState) :
    List Event × Except PyErr (Value × OrchestratorState) :=
  match ResearchAgent.process p t.research o.research_time
      (research_input destination constraints) with
  | (evs1, Except.error e) => (evs1, Except.error e)
  | (evs1, Except.ok (research_output, rt)) =>
    match research_output.getItem "research_data" with
    | Except.error e => (evs1, Except.error e)
    | Except.ok research_data =>
      match PlanningAgent.process p t.planning o.planning_time
          (planning_input destination constraints research_data) with
      | (evs2, Except.error e) => (evs1 ++ evs2, Except.error e)
      | (evs2, Except.ok (planning_output, pt)) =>
        match planning_output.getItem "itinerary" with
        | Except.error e => (evs1 ++ evs2, Except.error e)
        | Except.ok itinerary =>
          match PersonalizationAgent.process p t.personalization
              o.personalization_time
              (personalization_input destination constraints research_data itinerary) with
          | (evs3, Except.error e) => (evs1 ++ evs2 ++ evs3, Except.error e)
          | (evs3, Except.ok (personalization_output, zt)) =>
            (evs1 ++ evs2 ++ evs3,
             Except.ok
               (Value.obj
                 [("destination", Value.str destination),
                  ("constraints", Value.cdict constraints),
                  ("research_output", research_output),
                  ("planning_output", planning_output),
                  ("personalization_output", personalization_output),
                  ("total_processing_time", Value.num (rt + pt + zt)),
                  ("agent_times", Value.obj
                    [("research", Value.num rt),
                     ("planning", Value.num pt),
                     ("personalization", Value.num zt)])],
                ⟨rt, pt, zt⟩))

/-- The payload of a successful `plan_trip` run (empty object on error). -/
def tripOutput (r : Except PyErr (Value × OrchestratorState)) : Value :=
  match r with
  | Except.ok (v, _) => v
  | Except.error _ => Value.obj []

/-- The payload of a successful stage `process` (empty object on error). -/
def stageOutput (r : Except PyErr (Value × ℚ)) : Value :=
  match r with
  | Except.ok (v, _) => v
  | Except.error _ => Value.obj []

/-- The updated stored time of a successful stage `process`. -/
def stageStoredTime (r : Except PyErr (Value × ℚ)) : ℚ :=
  match r with
  | Except.ok (_, q) => q
  | Except.error _ => 0

/-- Whether an event is an attempted provider call. -/
def Event.isProvider : Event → Bool
  | Event.provider _ => true
  | _ => false

/-- Number of attempted provider calls in a trace. -/
def providerCalls (tr : List Event) : Nat :=
  (tr.filter Event.isProvider).length

/-- How many of the five Research information sub-calls fail in a run. -/
def researchFailCount (p : Provider) : Nat :=
  ([p.weather, p.events, p.attractions, p.accommodation,
    p.transport].filter Option.isNone).length

/-- Sample valid constraints (the spec's scenario: budget 1500, 7 days,
2 travelers, culture+food, balanced). -/
def sampleC : TravelConstraints :=
  { total_budget_usd := 1500, duration_days := 7, traveler_count := 2,
    preferences := ["culture", "food"] }

/-- Sample timings. -/
def sampleT : Timings := ⟨2, 3, 4⟩

/-- Provider run in which every call succeeds. -/
def allOkP : Provider :=
  ⟨some "w", some "e", some "a", some "ac", some "tr", some "syn",
   some "gen", some "opt", some "cost", some "pers", some "ctx"⟩

/-- Event trace of one successful Research stage invocation. -/
def researchTrace : List Event :=
  [Event.call AgentType.research, Event.provider "weather",
   Event.provider "events", Event.provider "attractions",
   Event.provider "accommodation", Event.provider "transport",
   Event.provider "synthesis", Event.ret AgentType.research]

/-- Event trace of one Planning stage invocation. -/
def planningTrace : List Event :=
  [Event.call AgentType.planning, Event.provider "generate_itinerary",
   Event.provider "optimize_logistics", Event.provider "analyze_costs",
   Event.ret AgentType.planning]

/-- Event trace of one Personalization stage invocation. -/
def personalizationTrace : List Event :=
  [Event.call AgentType.personalization, Event.provider "personalize",
   Event.provider "contextual_recommendations",
   Event.ret AgentType.personalization]

/-- Event trace of one successful `plan_trip` run. -/
def fullTrace : List Event :=
  researchTrace ++ planningTrace ++ personalizationTrace

/-- Payload the Research stage returns on a normal run, as a function of the
provider outcomes and of the agent's pre-invocation stored time `st`. -/
def researchPayload (p : Provider) (st : ℚ) (d : String) : Value :=
  Value.obj
    [("destination", Value.str d),
     ("research_data", ResearchAgent.synthesisResult p),
     ("raw_data", Value.obj
       [("weather", ResearchAgent.weatherResult p),
        ("events", ResearchAgent.eventsResult p),
        ("attractions", ResearchAgent.attractionsResult p),
        ("accommodation", ResearchAgent.accommodationResult p),
        ("transport", ResearchAgent.transportResult p)]),
     ("processing_time", Value.num st)]

/-- Payload the Planning stage returns, as a function of the provider
outcomes and of the agent's pre-invocation stored time `st`. -/
def planningPayload (p : Provider) (st : ℚ) (d : String)
    (c : TravelConstraints) : Value :=
  Value.obj
    [("destination", Value.str d),
     ("itinerary", PlanningAgent.optimizedResult p (PlanningAgent.itineraryResult p)),
     ("cost_analysis", PlanningAgent.costResult p),
     ("optimization_metrics",
      PlanningAgent.calculate_metrics
        (PlanningAgent.optimizedResult p (PlanningAgent.itineraryResult p)) c),
     ("processing_time", Value.num st)]

/-- Payload the Personalization stage returns for input itinerary `itin`. -/
def personalizationPayload (p : Provider) (st : ℚ) (itin : Value)
    (c : TravelConstraints) : Value :=
  Value.obj
    [("personalized_itinerary",
      PersonalizationAgent.enhancedResult p (PersonalizationAgent.personalizedResult p itin)),
     ("personalization_notes", PersonalizationAgent.generate_notes c),
     ("processing_time", Value.num st)]

/-- The composite result of a normal `plan_trip` run. -/
def compositeResult (p : Provider) (t : Timings) (d : String)
    (c : TravelConstraints) (o : OrchestratorState) : Value :=
  Value.obj
    [("destination", Value.str d),
     ("constraints", Value.cdict c),
     ("research_output", researchPayload p o.research_time d),
     ("planning_output", planningPayload p o.planning_time d c),
     ("personalization_output",
      personalizationPayload p o.personalization_time
        (PlanningAgent.optimizedResult p (PlanningAgent.itineraryResult p)) c),
     ("total_processing_time",
      Value.num (t.research + t.planning + t.personalization)),
     ("agent_times", Value.obj
       [("research", Value.num t.research),
        ("planning", Value.num t.planning),
        ("personalization", Value.num t.personalization)])]

/-- The accommodation step raises before its provider call when
`duration_days = 0`. -/
theorem get_accommodation_info_zero (p : Provider) (d : String)
    (c : TravelConstraints) (h : c.duration_days = 0) :
    ResearchAgent.get_accommodation_info p d c =
      ([], Except.error PyErr.zeroDivisionError) :=
  if_pos h

/-- The accommodation step performs its provider call when
`duration_days ≠ 0`. -/
theorem get_accommodation_info_ok (p : Provider) (d : String)
    (c : TravelConstraints) (h : c.duration_days ≠ 0) :
    ResearchAgent.get_accommodation_info p d c =
      ([Event.provider "accommodation"],
       Except.ok (ResearchAgent.accommodationResult p)) :=
  if_neg h

/-- Reduction of the Research body on a run without division failure. -/
theorem research_body_eq (p : Provider) (st : ℚ) (d : String)
    (c : TravelConstraints) (h : c.duration_days ≠ 0) :
    ResearchAgent.process_body p st d c =
      ([Event.provider "weather", Event.provider "events",
        Event.provider "attractions", Event.provider "accommodation",
        Event.provider "transport", Event.provider "synthesis"],
       Except.ok (researchPayload p st d)) := by
  unfold ResearchAgent.process_body
  rw [get_accommodation_info_ok p d c h]
  rfl

/-- Reduction of the Research body when `duration_days = 0`: three provider
calls were already attempted, then `ZeroDivisionError` escapes. -/
theorem research_body_zero (p : Provider) (st : ℚ) (d : String)
    (c : TravelConstraints) (h : c.duration_days = 0) :
    ResearchAgent.process_body p st d c =
      ([Event.provider "weather", Event.provider "events",
        Event.provider "attractions"],
       Except.error PyErr.zeroDivisionError) := by
  unfold ResearchAgent.process_body
  rw [get_accommodation_info_zero p d c h]
  rfl

/-- Reduction of the Research stage `process` on the orchestrator-assembled
input, for a run without division failure. -/
theorem research_process_eq (p : Provider) (e st : ℚ) (d : String)
    (c : TravelConstraints) (h : c.duration_days ≠ 0) :
    ResearchAgent.process p e st (research_input d c) =
      (researchTrace, Except.ok (researchPayload p st d, e)) := by
  unfold ResearchAgent.process
  rw [show ResearchAgent.process_internal p st (research_input d c) =
        ResearchAgent.process_body p st d c from rfl,
      research_body_eq p st d c h]
  rfl

/-- Reduction of the Research stage `process` when `duration_days = 0`:
the stage raises `ZeroDivisionError` past its own boundary. -/
theorem research_process_zero (p : Provider) (e st : ℚ) (d : String)
    (c : TravelConstraints) (h : c.duration_days = 0) :
    ResearchAgent.process p e st (research_input d c) =
      ([Event.call AgentType.research, Event.provider "weather",
        Event.provider "events", Event.provider "attractions"],
       Except.error PyErr.zeroDivisionError) := by
  unfold ResearchAgent.process
  rw [show ResearchAgent.process_internal p st (research_input d c) =
        ResearchAgent.process_body p st d c from rfl,
      research_body_zero p st d c h]
  rfl

/-- Reduction of the Planning stage `process` on the orchestrator-assembled
input (total: no failure can escape it). -/
theorem planning_process_eq (p : Provider) (e st : ℚ) (d : String)
    (c : TravelConstraints) (rd : Value) :
    PlanningAgent.process p e st (planning_input d c rd) =
      (planningTrace, Except.ok (planningPayload p st d c, e)) := rfl

/-- Reduction of the Personalization stage `process` on the
orchestrator-assembled input (total: no failure can escape it). -/
theorem personalization_process_eq (p : Provider) (e st : ℚ) (d : String)
    (c : TravelConstraints) (rd itin : Value) :
    PersonalizationAgent.process p e st
        (personalization_input d c rd itin) =
      (personalizationTrace,
       Except.ok (personalizationPayload p st itin c, e)) := rfl

/-- Reduction of a full `plan_trip` run without division failure. -/
theorem plan_trip_eq (p : Provider) (t : Timings) (d : String)
    (c : TravelConstraints) (o : OrchestratorState)
    (h : c.duration_days ≠ 0) :
    plan_trip p t d c o =
      (fullTrace,
       Except.ok (compositeResult p t d c o,
         ⟨t.research, t.planning, t.personalization⟩)) := by
  unfold plan_trip
  rw [research_process_eq p t.research o.research_time d c h]
  rfl

/-- Reduction of a `plan_trip` run with `duration_days = 0`: the
`ZeroDivisionError` of the Research stage escapes `plan_trip` after three
provider calls were already attempted. -/
theorem plan_trip_zero (p : Provider) (t : Timings) (d : String)
    (c : TravelConstraints) (o : OrchestratorState)
    (h : c.duration_days = 0) :
    plan_trip p t d c o =
      ([Event.call AgentType.research, Event.provider "weather",
        Event.provider "events", Event.provider "attractions"],
       Except.error PyErr.zeroDivisionError) := by
  unfold plan_trip
  rw [research_process_zero p t.research o.research_time d c h]

/-- Invalid constraints: negative budget (the spec's example
`total_budget_usd = -5`). -/
def badBudgetC : TravelConstraints :=
  { total_budget_usd := -5, duration_days := 7, traveler_count := 2,
    preferences := ["culture", "food"] }

/-- Invalid constraints: zero duration (the spec's example
`duration_days = 0`). -/
def zeroDaysC : TravelConstraints :=
  { total_budget_usd := 1500, duration_days := 0, traveler_count := 2,
    preferences := ["culture", "food"] }

/-- Run in which exactly the weather sub-call fails. -/
def weatherFailP : Provider :=
  ⟨none, some "e", some "a", some "ac", some "tr", some "syn",
   some "gen", some "opt", some "cost", some "pers", some "ctx"⟩

/-- Parsing step of the Research stage: when the input mapping holds the
required keys with well-formed values, the internal procedure runs its
body on them. -/
theorem research_internal_parse (p : Provider) (st : ℚ)
    (input : List (String × Value)) (d : String) (c : TravelConstraints)
    (h1 : dictGet input "destination" = some (Value.str d))
    (h2 : dictGet input "constraints" = some (Value.cdict c)) :
    ResearchAgent.process_internal p st input =
      ResearchAgent.process_body p st d c := by
  unfold ResearchAgent.process_internal
  rw [h1, h2]

/-- Parsing step of the Planning stage: with the required keys present, the
internal procedure runs the three sub-calls and returns the payload. -/
theorem planning_internal_parse (p : Provider) (st : ℚ)
    (input : List (String × Value)) (d : String) (c : TravelConstraints)
    (rd : Value)
    (h1 : dictGet input "research_data" = some rd)
    (h2 : dictGet input "constraints" = some (Value.cdict c))
    (h3 : dictGet input "destination" = some (Value.str d)) :
    PlanningAgent.process_internal p st input =
      ([Event.provider "generate_itinerary",
        Event.provider "optimize_logistics", Event.provider "analyze_costs"],
       Except.ok (planningPayload p st d c)) := by
  unfold PlanningAgent.process_internal
  rw [h1, h2, h3]
  rfl

/-- Parsing step of the Personalization stage: with the required keys
(`itinerary`, `constraints`) present, the internal procedure runs the two
sub-calls and returns the payload (`research_data` is optional). -/
theorem personalization_internal_parse (p : Provider) (st : ℚ)
    (input : List (String × Value)) (itin : Value) (c : TravelConstraints)
    (h1 : dictGet input "itinerary" = some itin)
    (h2 : dictGet input "constraints" = some (Value.cdict c)) :
    PersonalizationAgent.process_internal p st input =
      ([Event.provider "personalize",
        Event.provider "contextual_recommendations"],
       Except.ok (personalizationPayload p st itin c)) := by
  unfold PersonalizationAgent.process_internal
  rw [h1, h2]
  rfl

/-- C1 counterexample: for the invalid constraints with
`total_budget_usd = -5` (violating the Data-Model invariant), `plan_trip`
does NOT surface any error before the stages run: it completes normally
and all eleven provider calls are attempted — refuting the claim that a
ConstraintError is raised with zero provider-call side effects. -/
theorem c1_counterexample :
    ¬ badBudgetC.valid ∧
    exOk (plan_trip Provider.allFail sampleT "Georgia" badBudgetC
      OrchestratorState.init).2 = true ∧
    providerCalls (plan_trip Provider.allFail sampleT "Georgia" badBudgetC
      OrchestratorState.init).1 = 11 :=
  ⟨by decide, rfl, rfl⟩

/-- C1 (amended): `plan_trip` performs no constraint validation and raises
no ConstraintError; for every constraints value violating the Data-Model
invariants, provider calls are still attempted: when `duration_days ≠ 0`
the full pipeline runs (all 11 provider calls) and a composite result is
returned, and when `duration_days = 0` a ZeroDivisionError escapes from
the Research stage only after its first three provider calls were already
attempted. -/
theorem c1_theorem (p : Provider) (t : Timings) (d : String)
    (c : TravelConstraints) (o : OrchestratorState) (hinv : ¬ c.valid) :
    (c.duration_days ≠ 0 →
       exOk (plan_trip p t d c o).2 = true ∧
       providerCalls (plan_trip p t d c o).1 = 11) ∧
    (c.duration_days = 0 →
       (plan_trip p t d c o).2 = Except.error PyErr.zeroDivisionError ∧
       providerCalls (plan_trip p t d c o).1 = 3) := by
  constructor
  · intro hz
    rw [plan_trip_eq p t d c o hz]
    exact ⟨rfl, rfl⟩
  · intro hz
    rw [plan_trip_zero p t d c o hz]
    exact ⟨rfl, rfl⟩

/-- C1 witness: the amended theorem applied to the concrete invalid
constraints `badBudgetC`. -/
theorem c1_witness :
    ¬ badBudgetC.valid ∧
    (exOk (plan_trip Provider.allFail sampleT "Tbilisi" badBudgetC
       OrchestratorState.init).2 = true ∧
     providerCalls (plan_trip Provider.allFail sampleT "Tbilisi" badBudgetC
       OrchestratorState.init).1 = 11) :=
  ⟨by decide,
   (c1_theorem Provider.allFail sampleT "Tbilisi" badBudgetC
     OrchestratorState.init (by decide)).1 (by decide)⟩

/-- C2 counterexample: with every provider call failing, the planning
stage's `itinerary` sub-result is NOT a sentinel string: `_optimize_logistics`
falls back to its input value, so the field is a nested object wrapping the
failed generation sentinel — refuting "every sub-result field equals its
documented fixed sentinel string". -/
theorem c2_counterexample :
    Value.isStr
      (((tripOutput (plan_trip Provider.allFail sampleT "Georgia" sampleC
          OrchestratorState.init).2).getField
          "planning_output").getField "itinerary") = false ∧
    ((tripOutput (plan_trip Provider.allFail sampleT "Georgia" sampleC
        OrchestratorState.init).2).getField
        "planning_output").getField "itinerary" =
      Value.obj [("optimized_itinerary",
        Value.obj [("itinerary", Value.str "Itinerary generation failed")])] :=
  ⟨rfl, rfl⟩

/-- C2 (amended): when every delegated provider call fails, `plan_trip`
still returns a composite result (no exception escapes) and every
sub-result carries its documented fallback: the five research sub-results
and the synthesis, itinerary-generation and cost-analysis sub-results are
their fixed sentinel strings, while the optimize-logistics, personalize and
contextual-recommendations sub-results fall back to their INPUT value, so
the planning `itinerary` field nests the generation sentinel and the
personalized itinerary nests that same object. -/
theorem c2_theorem (t : Timings) (d : String) (c : TravelConstraints)
    (o : OrchestratorState) (hz : c.duration_days ≠ 0) :
    exOk (plan_trip Provider.allFail t d c o).2 = true ∧
    (((tripOutput (plan_trip Provider.allFail t d c o).2).getField
       "research_output").getField "raw_data").getField "weather" =
      Value.obj [("weather_summary", Value.str "Weather information unavailable")] ∧
    (((tripOutput (plan_trip Provider.allFail t d c o).2).getField
       "research_output").getField "raw_data").getField "events" =
      Value.obj [("events", Value.str "Events information unavailable")] ∧
    (((tripOutput (plan_trip Provider.allFail t d c o).2).getField
       "research_output").getField "raw_data").getField "attractions" =
      Value.obj [("attractions", Value.str "Attractions information unavailable")] ∧
    (((tripOutput (plan_trip Provider.allFail t d c o).2).getField
       "research_output").getField "raw_data").getField "accommodation" =
      Value.obj [("accommodation", Value.str "Accommodation information unavailable")] ∧
    (((tripOutput (plan_trip Provider.allFail t d c o).2).getField
       "research_output").getField "raw_data").getField "transport" =
      Value.obj [("transport", Value.str "Transport information unavailable")] ∧
    ((tripOutput (plan_trip Provider.allFail t d c o).2).getField
       "research_output").getField "research_data" =
      Value.obj [("synthesis", Value.str "Synthesis unavailable")] ∧
    ((tripOutput (plan_trip Provider.allFail t d c o).2).getField
       "planning_output").getField "cost_analysis" =
      Value.obj [("cost_analysis", Value.str "Cost analysis unavailable")] ∧
    ((tripOutput (plan_trip Provider.allFail t d c o).2).getField
       "planning_output").getField "itinerary" =
      Value.obj [("optimized_itinerary",
        Value.obj [("itinerary", Value.str "Itinerary generation failed")])] ∧
    ((tripOutput (plan_trip Provider.allFail t d c o).2).getField
       "personalization_output").getField "personalized_itinerary" =
      Value.obj [("enhanced_itinerary",
        Value.obj [("personalized",
          Value.obj [("optimized_itinerary",
            Value.obj [("itinerary", Value.str "Itinerary generation failed")])])])] := by
  rw [plan_trip_eq Provider.allFail t d c o hz]
  exact ⟨rfl, rfl, rfl, rfl, rfl, rfl, rfl, rfl, rfl, rfl⟩

/-- C2 witness: the amended theorem applied at concrete inputs. -/
theorem c2_witness :
    sampleC.duration_days ≠ 0 ∧
    exOk (plan_trip Provider.allFail sampleT "Batumi" sampleC
      OrchestratorState.init).2 = true :=
  ⟨by decide,
   (c2_theorem sampleT "Batumi" sampleC OrchestratorState.init (by decide)).1⟩

/-- C3: for every valid constraints value (all numeric fields positive),
`plan_trip` returns a composite result whose `agent_times` has exactly the
three stage keys `research`, `planning`, `personalization`, and whose
`total_processing_time` equals their exact sum. -/
theorem c3_theorem (p : Provider) (t : Timings) (d : String)
    (c : TravelConstraints) (o : OrchestratorState) (h : c.valid) :
    exOk (plan_trip p t d c o).2 = true ∧
    (tripOutput (plan_trip p t d c o).2).getField "agent_times" =
      Value.obj [("research", Value.num t.research),
                 ("planning", Value.num t.planning),
                 ("personalization", Value.num t.personalization)] ∧
    ((tripOutput (plan_trip p t d c o).2).getField "agent_times").keys =
      ["research", "planning", "personalization"] ∧
    (tripOutput (plan_trip p t d c o).2).getField "total_processing_time" =
      Value.num (t.research + t.planning + t.personalization) := by
  rw [plan_trip_eq p t d c o h.2.1.ne']
  exact ⟨rfl, rfl, rfl, rfl⟩

/-- C3 witness: the theorem applied to the spec's sample scenario. -/
theorem c3_witness :
    sampleC.valid ∧
    exOk (plan_trip allOkP sampleT "Georgia" sampleC
      OrchestratorState.init).2 = true :=
  ⟨by decide,
   (c3_theorem allOkP sampleT "Georgia" sampleC OrchestratorState.init
     (by decide)).1⟩

/-- C4 counterexample: an input mapping that DOES contain the two keys the
Research variant requires, but whose constraints have `duration_days = 0`:
the stage raises `ZeroDivisionError` past its own boundary instead of
returning a StageResult — refuting "never raises for every input mapping
containing the required keys". -/
theorem c4_counterexample :
    (dictGet (research_input "Tbilisi" zeroDaysC) "destination").isSome = true ∧
    (dictGet (research_input "Tbilisi" zeroDaysC) "constraints").isSome = true ∧
    (ResearchAgent.process allOkP 1 0 (research_input "Tbilisi" zeroDaysC)).2 =
      Except.error PyErr.zeroDivisionError :=
  ⟨rfl, rfl, rfl⟩

/-- C4 (amended): for every input mapping containing the keys the stage
variant requires (with well-formed values), a stage agent's `process`
always returns a StageResult whatever the provider outcomes — EXCEPT that
the Research stage additionally requires `duration_days ≠ 0`, since its
accommodation step divides by `duration_days` outside its try block. The
Planning and Personalization stages never raise past their boundary. -/
theorem c4_theorem :
    (∀ (p : Provider) (e st : ℚ) (input : List (String × Value))
       (d : String) (c : TravelConstraints),
       dictGet input "destination" = some (Value.str d) →
       dictGet input "constraints" = some (Value.cdict c) →
       c.duration_days ≠ 0 →
       exOk (ResearchAgent.process p e st input).2 = true) ∧
    (∀ (p : Provider) (e st : ℚ) (input : List (String × Value))
       (d : String) (c : TravelConstraints) (rd : Value),
       dictGet input "research_data" = some rd →
       dictGet input "constraints" = some (Value.cdict c) →
       dictGet input "destination" = some (Value.str d) →
       exOk (PlanningAgent.process p e st input).2 = true) ∧
    (∀ (p : Provider) (e st : ℚ) (input : List (String × Value))
       (itin : Value) (c : TravelConstraints),
       dictGet input "itinerary" = some itin →
       dictGet input "constraints" = some (Value.cdict c) →
       exOk (PersonalizationAgent.process p e st input).2 = true) := by
  refine ⟨?_, ?_, ?_⟩
  · intro p e st input d c h1 h2 hz
    unfold ResearchAgent.process
    rw [research_internal_parse p st input d c h1 h2,
        research_body_eq p st d c hz]
    rfl
  · intro p e st input d c rd h1 h2 h3
    unfold PlanningAgent.process
    rw [planning_internal_parse p st input d c rd h1 h2 h3]
    rfl
  · intro p e st input itin c h1 h2
    unfold PersonalizationAgent.process
    rw [personalization_internal_parse p st input itin c h1 h2]
    rfl

/-- C4 witness: the Research conjunct applied at a concrete input with the
required keys present and nonzero duration. -/
theorem c4_witness :
    dictGet (research_input "Georgia" sampleC) "destination" =
      some (Value.str "Georgia") ∧
    sampleC.duration_days ≠ 0 ∧
    exOk (ResearchAgent.process Provider.allFail 1 0
      (research_input "Georgia" sampleC)).2 = true :=
  ⟨rfl, by decide,
   c4_theorem.1 Provider.allFail 1 0 (research_input "Georgia" sampleC)
     "Georgia" sampleC rfl rfl (by decide)⟩

/-- C5: when exactly one of the five Research information sub-calls fails
while the others succeed, the Research StageResult still carries all five
raw-data keys, the failed one holds its sentinel value, and the synthesis
provider call is still attempted over the partial data. -/
theorem c5_theorem (p : Provider) (e st : ℚ) (d : String)
    (c : TravelConstraints) (hz : c.duration_days ≠ 0)
    (hone : researchFailCount p = 1) :
    exOk (ResearchAgent.process p e st (research_input d c)).2 = true ∧
    ((stageOutput (ResearchAgent.process p e st
       (research_input d c)).2).getField "raw_data").keys =
      ["weather", "events", "attractions", "accommodation", "transport"] ∧
    (p.weather = none →
      ((stageOutput (ResearchAgent.process p e st
         (research_input d c)).2).getField "raw_data").getField "weather" =
        Value.obj [("weather_summary",
          Value.str "Weather information unavailable")]) ∧
    (p.events = none →
      ((stageOutput (ResearchAgent.process p e st
         (research_input d c)).2).getField "raw_data").getField "events" =
        Value.obj [("events", Value.str "Events information unavailable")]) ∧
    (p.attractions = none →
      ((stageOutput (ResearchAgent.process p e st
         (research_input d c)).2).getField "raw_data").getField "attractions" =
        Value.obj [("attractions",
          Value.str "Attractions information unavailable")]) ∧
    (p.accommodation = none →
      ((stageOutput (ResearchAgent.process p e st
         (research_input d c)).2).getField "raw_data").getField "accommodation" =
        Value.obj [("accommodation",
          Value.str "Accommodation information unavailable")]) ∧
    (p.transport = none →
      ((stageOutput (ResearchAgent.process p e st
         (research_input d c)).2).getField "raw_data").getField "transport" =
        Value.obj [("transport",
          Value.str "Transport information unavailable")]) ∧
    Event.provider "synthesis" ∈
      (ResearchAgent.process p e st (research_input d c)).1 := by
  rw [research_process_eq p e st d c hz]
  refine ⟨rfl, rfl, ?_, ?_, ?_, ?_, ?_, ?_⟩
  · intro hw
    show ResearchAgent.weatherResult p = _
    unfold ResearchAgent.weatherResult
    rw [hw]
  · intro hw
    show ResearchAgent.eventsResult p = _
    unfold ResearchAgent.eventsResult
    rw [hw]
  · intro hw
    show ResearchAgent.attractionsResult p = _
    unfold ResearchAgent.attractionsResult
    rw [hw]
  · intro hw
    show ResearchAgent.accommodationResult p = _
    unfold ResearchAgent.accommodationResult
    rw [hw]
  · intro hw
    show ResearchAgent.transportResult p = _
    unfold ResearchAgent.transportResult
    rw [hw]
  · show Event.provider "synthesis" ∈ researchTrace
    decide

/-- C5 witness: the theorem applied to a run in which exactly the weather
sub-call fails. -/
theorem c5_witness :
    sampleC.duration_days ≠ 0 ∧
    researchFailCount weatherFailP = 1 ∧
    (weatherFailP.weather = none ∧
     ((stageOutput (ResearchAgent.process weatherFailP 1 0
        (research_input "Georgia" sampleC)).2).getField
        "raw_data").getField "weather" =
       Value.obj [("weather_summary",
         Value.str "Weather information unavailable")]) :=
  ⟨by decide, rfl,
   rfl,
   (c5_theorem weatherFailP 1 0 "Georgia" sampleC (by decide)
     rfl).2.2.1 rfl⟩

/-- C6: for every run, the Planning stage is never entered before the
Research stage has returned, and the Personalization stage is never entered
before the Planning stage has returned (positions in the linear event trace;
the trace is linear because the stages run strictly sequentially). -/
theorem c6_theorem (p : Provider) (t : Timings) (d : String)
    (c : TravelConstraints) (o : OrchestratorState) :
    (Event.call AgentType.planning ∈ (plan_trip p t d c o).1 →
       (plan_trip p t d c o).1.indexOf (Event.ret AgentType.research) <
       (plan_trip p t d c o).1.indexOf (Event.call AgentType.planning)) ∧
    (Event.call AgentType.personalization ∈ (plan_trip p t d c o).1 →
       (plan_trip p t d c o).1.indexOf (Event.ret AgentType.planning) <
       (plan_trip p t d c o).1.indexOf (Event.call AgentType.personalization)) := by
  by_cases hz : c.duration_days = 0
  · rw [plan_trip_zero p t d c o hz]
    exact ⟨fun hmem => absurd hmem (by decide),
           fun hmem => absurd hmem (by decide)⟩
  · rw [plan_trip_eq p t d c o hz]
    constructor
    · intro hmem
      show List.indexOf (Event.ret AgentType.research) fullTrace <
           List.indexOf (Event.call AgentType.planning) fullTrace
      decide
    · intro hmem
      show List.indexOf (Event.ret AgentType.planning) fullTrace <
           List.indexOf (Event.call AgentType.personalization) fullTrace
      decide

/-- C6 witness: a run in which Planning is entered, and it is entered only
after Research has returned. -/
theorem c6_witness :
    Event.call AgentType.planning ∈
      (plan_trip allOkP sampleT "Georgia" sampleC OrchestratorState.init).1 ∧
    (plan_trip allOkP sampleT "Georgia" sampleC
      OrchestratorState.init).1.indexOf (Event.ret AgentType.research) <
    (plan_trip allOkP sampleT "Georgia" sampleC
      OrchestratorState.init).1.indexOf (Event.call AgentType.planning) :=
  ⟨by decide,
   (c6_theorem allOkP sampleT "Georgia" sampleC OrchestratorState.init).1
     (by decide)⟩

/-- C7: evaluation of the code at the failing input. On the Research
agent's first invocation (stored `processing_time = 0`) with elapsed
duration 5, the payload's embedded `processing_time` is the STALE
pre-invocation value 0, not the elapsed duration 5 which the wrapper only
stores after `_process_internal` has already built the payload. -/
theorem c7_code_evaluation :
    (stageOutput (ResearchAgent.process allOkP 5 0
      (research_input "Georgia" sampleC)).2).getField "processing_time" =
      Value.num 0 ∧
    stageStoredTime (ResearchAgent.process allOkP 5 0
      (research_input "Georgia" sampleC)).2 = 5 ∧
    (0 : ℚ) ≠ 5 :=
  ⟨rfl, rfl, by norm_num⟩

/-- C8 counterexample: the input the orchestrator assembles for the
Personalization stage contains the key `destination`, which is not among
the three keys the variant declares it needs — refuting "no more and no
less". -/
theorem c8_counterexample :
    "destination" ∈ (personalization_input "Georgia" sampleC
      (Value.str "rd") (Value.str "it")).map Prod.fst ∧
    "destination" ∉ (["itinerary", "constraints", "research_data"] :
      List String) :=
  ⟨by decide, by decide⟩

/-- C8 (amended): the orchestrator passes exactly
destination + constraints to Research, destination + constraints +
research output to Planning, and destination + constraints + research
context + itinerary to Personalization — one key (`destination`) more
than the Personalization variant declares it needs. -/
theorem c8_theorem (d : String) (c : TravelConstraints) (rd itin : Value) :
    (research_input d c).map Prod.fst = ["destination", "constraints"] ∧
    (planning_input d c rd).map Prod.fst =
      ["destination", "constraints", "research_data"] ∧
    (personalization_input d c rd itin).map Prod.fst =
      ["destination", "constraints", "research_data", "itinerary"] :=
  ⟨rfl, rfl, rfl⟩

/-- C9: the Planning stage's local metric computation ignores both its
inputs and always returns the same fixed mapping of placeholder constants
(0.85, 0.92, 0.88, 0.91). -/
theorem c9_theorem (itinerary itinerary2 : Value)
    (c c2 : TravelConstraints) :
    PlanningAgent.calculate_metrics itinerary c =
      PlanningAgent.calculate_metrics itinerary2 c2 ∧
    PlanningAgent.calculate_metrics itinerary c =
      Value.obj [("budget_utilization", Value.num 0.85),
                 ("geographic_efficiency", Value.num 0.92),
                 ("time_efficiency", Value.num 0.88),
                 ("preference_match", Value.num 0.91)] :=
  ⟨rfl, rfl⟩

/-- C10: the `processing_time` embedded in each stage's payload equals the
agent's stored value from BEFORE that invocation (so 0 on a fresh
orchestrator, where every agent was constructed with
`processing_time = 0.0`), while the `agent_times` the orchestrator reports
are the post-invocation elapsed values. -/
theorem c10_theorem (p : Provider) (t : Timings) (d : String)
    (c : TravelConstraints) (o : OrchestratorState)
    (hz : c.duration_days ≠ 0) :
    ((tripOutput (plan_trip p t d c o).2).getField
       "research_output").getField "processing_time" =
      Value.num o.research_time ∧
    ((tripOutput (plan_trip p t d c o).2).getField
       "planning_output").getField "processing_time" =
      Value.num o.planning_time ∧
    ((tripOutput (plan_trip p t d c o).2).getField
       "personalization_output").getField "processing_time" =
      Value.num o.personalization_time ∧
    (tripOutput (plan_trip p t d c o).2).getField "agent_times" =
      Value.obj [("research", Value.num t.research),
                 ("planning", Value.num t.planning),
                 ("personalization", Value.num t.personalization)] ∧
    OrchestratorState.init = ⟨0, 0, 0⟩ := by
  rw [plan_trip_eq p t d c o hz]
  exact ⟨rfl, rfl, rfl, rfl, rfl⟩

/-- C10 witness: on a fresh orchestrator the research payload embeds
processing_time 0 regardless of the elapsed times. -/
theorem c10_witness :
    sampleC.duration_days ≠ 0 ∧
    ((tripOutput (plan_trip allOkP sampleT "Georgia" sampleC
       OrchestratorState.init).2).getField
       "research_output").getField "processing_time" = Value.num 0 :=
  ⟨by decide,
   (c10_theorem allOkP sampleT "Georgia" sampleC OrchestratorState.init
     (by decide)).1⟩

end TravelPlanner
